import Mathlib

/-!
Verification development for the parquet viewer (`pview.py`).

We shallowly embed the core state of `ParquetViewer` and its operations:
the dataframe slot, the viewing offset, the watched-file bookkeeping of
`QFileSystemWatcher`, the recent-files list, and the table models.  Cell
values are modelled as `Option String`, where `some s` stands for a non-null
scalar whose `str(...)` rendering is `s`, and `none` stands for a null.
Environment effects (the result of `pl.read_parquet`, `os.path.getmtime`,
and the user reply to the reload prompt) are passed as explicit
parameters to the transition functions.
-/

namespace PView

/-- `PAGE_SIZE = 10000` from `pview.py`. -/
def PAGE_SIZE : Nat := 10000

/-- `MAX_RECENT_FILES = 10` from `pview.py`. -/
def MAX_RECENT_FILES : Nat := 10

/-- A polars dataframe: named columns and row-major nullable cells.
`some s` is a non-null scalar rendered (by `str`) as `s`; `none` is a null. -/
structure DataFrame where
  columns : List String
  data : List (List (Option String))
  deriving DecidableEq, Repr

/-- `df.height`: the number of rows. -/
def DataFrame.height (df : DataFrame) : Nat := df.data.length

/-- `df.width`: the number of columns. -/
def DataFrame.width (df : DataFrame) : Nat := df.columns.length

/-- `df[row, col]` for in-range indices (out of range defaults to null;
the viewer only indexes in range). -/
def DataFrame.cellAt (df : DataFrame) (r c : Nat) : Option String :=
  (df.data.getD r []).getD c none

/-- `pl.DataFrame.slice(offset, length)`: a negative offset counts from the
end of the frame; the returned rows are the (at most `length`) rows starting
at the clamped offset, never running past the end of the frame. -/
def DataFrame.slice (df : DataFrame) (offset : Int) (length : Nat) : DataFrame :=
  let start : Nat :=
    if offset < 0 then ((df.height : Int) + offset).toNat
    else min offset.toNat df.height
  { columns := df.columns, data := (df.data.drop start).take length }

/-- `PolarsTableModel`: the Qt model over one page of the dataframe.
`_row_offset` is the starting row of the page in the full dataset. -/
structure PolarsTableModel where
  df_page : DataFrame
  row_offset : Int
  deriving DecidableEq, Repr

/-- `PolarsTableModel.rowCount`. -/
def PolarsTableModel.rowCount (m : PolarsTableModel) : Nat := m.df_page.height

/-- `PolarsTableModel.columnCount`. -/
def PolarsTableModel.columnCount (m : PolarsTableModel) : Nat := m.df_page.width

/-- `PolarsTableModel.data` at display role: `none` for an invalid index
(Python returns `None`); for a valid index, a null cell renders as `""` and
a non-null cell as `str(value)`. -/
def PolarsTableModel.dataAt (m : PolarsTableModel) (row col : Nat) : Option String :=
  if row < m.rowCount ∧ col < m.columnCount then
    some (match m.df_page.cellAt row col with
      | none => ""
      | some v => v)
  else none

/-- `ValueCountsModel`: the Qt model for the value-counts dialog; it always
reports the three headers `["Value", "Count", "%"]`. -/
structure ValueCountsModel where
  df_counts : DataFrame
  deriving DecidableEq, Repr

/-- `ValueCountsModel.rowCount`. -/
def ValueCountsModel.rowCount (m : ValueCountsModel) : Nat := m.df_counts.height

/-- `ValueCountsModel.columnCount` is `len(self._headers) = 3`. -/
def ValueCountsModel.columnCount (_m : ValueCountsModel) : Nat := 3

/-- `ValueCountsModel.data` at display role: `none` for an invalid index;
a null cell renders as the explicit marker `"<null>"`; a non-null cell
renders as its stored string (the `f-string` percent formatting of the
float in column 2, applied after the null check in the source, is folded
into the stored rendering since floating point is outside this embedding). -/
def ValueCountsModel.dataAt (m : ValueCountsModel) (row col : Nat) : Option String :=
  if row < m.rowCount ∧ col < m.columnCount then
    some (match m.df_counts.cellAt row col with
      | none => "<null>"
      | some v => v)
  else none

/-- The text of `status_label`, abstracted to its constructors. -/
inductive Status where
  | noFile
  | showingRows (startRow endRow total : Int)
  | errorLoading (path : String)
  | fileNotFound (path : String)
  deriving DecidableEq, Repr

/-- The core state of `ParquetViewer`: the dataframe slot, offset, current
path and mtime, the watcher path list, the persisted recent list and
last-file path, the installed table model and the status label. -/
structure ViewerState where
  df : Option DataFrame
  current_offset : Int
  current_file_path : Option String
  current_file_mtime : Option Int
  watched : List String
  recentFiles : List String
  lastFilePath : Option String
  model : Option PolarsTableModel
  status : Status
  deriving DecidableEq, Repr

/-- `add_to_recent_files`: remove the path if already present, insert it at
the front, truncate to `MAX_RECENT_FILES` (`del recent_files[10:]`). -/
def add_to_recent_files (recent : List String) (file_path : String) : List String :=
  let r := if file_path ∈ recent then recent.erase file_path else recent
  (file_path :: r).take MAX_RECENT_FILES

/-- The guard at the top of `load_parquet_data`: if the current path is
being watched, remove it from the watcher (`removePath`); only the
watcher list changes. -/
def unwatchCurrent (s : ViewerState) : ViewerState :=
  { s with
      watched :=
        match s.current_file_path with
        | some p => if p ∈ s.watched then s.watched.erase p else s.watched
        | none => s.watched }

/-- `QFileSystemWatcher.addPath`: adding an already-watched path is a no-op. -/
def addWatch (w : List String) (p : String) : List String :=
  if p ∈ w then w else w ++ [p]

/-- `update_table_view`: install a fresh page model sliced at the current
offset and refresh the status label; with no dataframe, clear both.  Only
the installed model and the status label change. -/
def update_table_view (s : ViewerState) : ViewerState :=
  { s with
      model :=
        match s.df with
        | none => none
        | some df =>
          some { df_page := df.slice s.current_offset PAGE_SIZE
                 row_offset := s.current_offset }
      status :=
        match s.df with
        | none => Status.noFile
        | some df =>
          Status.showingRows (s.current_offset + 1)
            (min (s.current_offset + (PAGE_SIZE : Int)) (df.height : Int))
            (df.height : Int) }

/-- `load_parquet_data(file_path, offset)`.  `readResult` is the outcome of
`pl.read_parquet(file_path)` (`none` when it raises) and `mtime` the
modification time read after a successful decode.  On success the new frame
is installed with the requested offset, the watcher switches to the new
path, the settings and the recency list are updated and the view refreshed;
on failure the dataframe slot is cleared and the error shown in the status
label (the unwatch of the previous path has already happened). -/
def load_parquet_data (s : ViewerState) (file_path : String) (offset : Int)
    (readResult : Option DataFrame) (mtime : Int) : ViewerState :=
  let s1 := unwatchCurrent s
  match readResult with
  | some df =>
    update_table_view
      { s1 with
          df := some df
          current_offset := offset
          current_file_path := some file_path
          current_file_mtime := some mtime
          watched := addWatch s1.watched file_path
          lastFilePath := some file_path
          recentFiles := add_to_recent_files s1.recentFiles file_path }
  | none =>
    { s1 with df := none, status := Status.errorLoading file_path }

/-- `handle_file_change(path)`: the slot for `fileChanged`.  `mtimeNow` is
the outcome of `os.path.getmtime(path)` (`none` when it raises
`FileNotFoundError`), `replyYes` the user reply to the reload prompt,
and `readResult`/`readMtime` feed the reload when the user accepts.  The
second component records whether the prompt (`QMessageBox.question`) was
shown, i.e. whether a reload candidate was raised. -/
def handle_file_change (s : ViewerState) (path : String) (mtimeNow : Option Int)
    (replyYes : Bool) (readResult : Option DataFrame) (readMtime : Int) :
    ViewerState × Bool :=
  if some path ≠ s.current_file_path then (s, false)
  else
    match mtimeNow with
    | none =>
      ({ s with watched := s.watched.erase path, status := Status.fileNotFound path }, false)
    | some m =>
      if some m = s.current_file_mtime then (s, false)
      else if replyYes then
        (load_parquet_data s path s.current_offset readResult readMtime, true)
      else ({ s with current_file_mtime := some m }, true)

/-- `go_previous`: step the offset back one page, clamped at 0. -/
def go_previous (s : ViewerState) : ViewerState :=
  update_table_view { s with current_offset := max 0 (s.current_offset - (PAGE_SIZE : Int)) }

/-- `go_next`: step the offset forward one page only when a dataframe is
loaded and a further page exists; otherwise do nothing at all. -/
def go_next (s : ViewerState) : ViewerState :=
  match s.df with
  | some df =>
    if s.current_offset + (PAGE_SIZE : Int) < (df.height : Int) then
      update_table_view { s with current_offset := s.current_offset + (PAGE_SIZE : Int) }
    else s
  | none => s

/-- The reclamp rule exactly as the spec words it (§4.2): on reload, if
`offset ≥ newHeight`, reset to `max(0, floor((newHeight-1)/pageSize)*pageSize)`,
else keep the offset unchanged.  Stated for comparison with the code; the
code performs no such reclamping. -/
def specReclamp (offset : Int) (newHeight pageSize : Nat) : Int :=
  if (newHeight : Int) ≤ offset then
    max 0 ((((newHeight : Int) - 1).fdiv (pageSize : Int)) * (pageSize : Int))
  else offset

/-! ### Concrete fixtures used by the witnesses and counterexamples -/

/-- A three-row, one-column frame with a null in the last row. -/
def dfA : DataFrame := { columns := ["a"], data := [[some "1"], [some "2"], [none]] }

/-- A 10001-row frame: two pages at `PAGE_SIZE = 10000`. -/
def dfBig : DataFrame := { columns := ["id"], data := List.replicate 10001 [some "0"] }

/-- A three-row frame standing for the shrunken file after an external rewrite. -/
def dfShrunk : DataFrame :=
  { columns := ["id"], data := [[some "0"], [some "1"], [some "2"]] }

/-- A viewer with `dfA` loaded at offset 0, watching `a.parquet`. -/
def viewerA : ViewerState :=
  { df := some dfA
    current_offset := 0
    current_file_path := some "a.parquet"
    current_file_mtime := some 100
    watched := ["a.parquet"]
    recentFiles := ["a.parquet"]
    lastFilePath := some "a.parquet"
    model := none
    status := Status.showingRows 1 3 3 }

/-- A viewer on the second page (offset 10000) of `dfBig`. -/
def viewerPage2 : ViewerState :=
  { df := some dfBig
    current_offset := 10000
    current_file_path := some "a.parquet"
    current_file_mtime := some 100
    watched := ["a.parquet"]
    recentFiles := ["a.parquet"]
    lastFilePath := some "a.parquet"
    model := none
    status := Status.showingRows 10001 10001 10001 }

/-! ### Helper lemmas -/

theorem update_table_view_current_offset (s : ViewerState) :
    (update_table_view s).current_offset = s.current_offset := rfl

theorem update_table_view_df (s : ViewerState) :
    (update_table_view s).df = s.df := rfl

theorem update_table_view_current_file_path (s : ViewerState) :
    (update_table_view s).current_file_path = s.current_file_path := rfl

theorem update_table_view_current_file_mtime (s : ViewerState) :
    (update_table_view s).current_file_mtime = s.current_file_mtime := rfl

theorem update_table_view_watched (s : ViewerState) :
    (update_table_view s).watched = s.watched := rfl

theorem unwatchCurrent_current_offset (s : ViewerState) :
    (unwatchCurrent s).current_offset = s.current_offset := rfl

theorem add_to_recent_files_eq (l : List String) (p : String) :
    add_to_recent_files l p = p :: (l.erase p).take 9 := by
  unfold add_to_recent_files
  by_cases h : p ∈ l
  · simp only [if_pos h]
    rfl
  · simp only [if_neg h, List.erase_of_not_mem h]
    rfl

theorem DataFrame.slice_height_eq (df : DataFrame) (offset : Int) (len : Nat)
    (h : 0 ≤ offset) :
    (df.slice offset len).height = min len (df.height - offset.toNat) := by
  unfold DataFrame.slice DataFrame.height
  simp only [if_neg (not_lt.mpr h), List.length_take, List.length_drop]
  omega

/-! ### Claims -/

/-- C5 (confirmed): starting from a duplicate-free recency list,
`add_to_recent_files` keeps the length within `MAX_RECENT_FILES = 10`;
the inserted path becomes the head (most-recent-first); the surviving
entries keep their relative order from the input list (the tail is a
sublist of the input); the identical call repeated is idempotent; and no
duplicate is created. -/
theorem recordRecent_spec (l : List String) (p : String) (h : l.Nodup) :
    (add_to_recent_files l p).length ≤ MAX_RECENT_FILES
    ∧ (add_to_recent_files l p).head? = some p
    ∧ (add_to_recent_files l p).tail.Sublist l
    ∧ add_to_recent_files (add_to_recent_files l p) p = add_to_recent_files l p
    ∧ (add_to_recent_files l p).Nodup := by
  rw [add_to_recent_files_eq]
  refine ⟨?_, rfl, ?_, ?_, ?_⟩
  · simp only [List.length_cons, List.length_take, MAX_RECENT_FILES]
    omega
  · exact (List.take_sublist _ _).trans (List.erase_sublist _ _)
  · rw [add_to_recent_files_eq, List.erase_cons_head, List.take_take]
    norm_num
  · refine List.nodup_cons.mpr ⟨fun hmem => ?_, ?_⟩
    · exact absurd (h.mem_erase_iff.mp (List.mem_of_mem_take hmem)).1 (by simp)
    · exact List.Nodup.sublist (List.take_sublist _ _) (h.erase p)

/-- C5 witness: a concrete run on the two-element list `["b", "a"]`
reinserting the already-present `"a"`. -/
theorem recordRecent_spec_witness :
    (add_to_recent_files ["b", "a"] "a").length ≤ MAX_RECENT_FILES
    ∧ (add_to_recent_files ["b", "a"] "a").head? = some "a"
    ∧ (add_to_recent_files ["b", "a"] "a").tail.Sublist ["b", "a"]
    ∧ add_to_recent_files (add_to_recent_files ["b", "a"] "a") "a"
        = add_to_recent_files ["b", "a"] "a"
    ∧ (add_to_recent_files ["b", "a"] "a").Nodup :=
  recordRecent_spec ["b", "a"] "a" (by decide)

/-- C7 (confirmed): with a dataframe of the given height loaded,
`update_table_view` installs the page sliced at the current offset; the
slice holds exactly `min(PAGE_SIZE, height - offset)` rows when
`0 ≤ offset < height` and `0` rows when `offset ≥ height`; the row count
never exceeds the height and the window never runs past the height. -/
theorem update_table_view_slice_spec (s : ViewerState) (df : DataFrame)
    (hdf : s.df = some df) (h0 : 0 ≤ s.current_offset) :
    (update_table_view s).model
      = some { df_page := df.slice s.current_offset PAGE_SIZE
               row_offset := s.current_offset }
    ∧ (s.current_offset < (df.height : Int) →
        ((df.slice s.current_offset PAGE_SIZE).height : Int)
          = min (PAGE_SIZE : Int) ((df.height : Int) - s.current_offset))
    ∧ ((df.height : Int) ≤ s.current_offset →
        (df.slice s.current_offset PAGE_SIZE).height = 0)
    ∧ (df.slice s.current_offset PAGE_SIZE).height ≤ df.height
    ∧ (s.current_offset < (df.height : Int) →
        s.current_offset + ((df.slice s.current_offset PAGE_SIZE).height : Int)
          ≤ (df.height : Int)) := by
  have hh := DataFrame.slice_height_eq df s.current_offset PAGE_SIZE h0
  refine ⟨by simp [update_table_view, hdf], ?_, ?_, ?_, ?_⟩ <;> rw [hh] <;> intros <;> omega

/-- C7 witness: `viewerA` (height 3, offset 0) shows all three rows. -/
theorem update_table_view_slice_spec_witness :
    (update_table_view viewerA).model
      = some { df_page := dfA.slice viewerA.current_offset PAGE_SIZE
               row_offset := viewerA.current_offset }
    ∧ (viewerA.current_offset < (dfA.height : Int) →
        ((dfA.slice viewerA.current_offset PAGE_SIZE).height : Int)
          = min (PAGE_SIZE : Int) ((dfA.height : Int) - viewerA.current_offset))
    ∧ ((dfA.height : Int) ≤ viewerA.current_offset →
        (dfA.slice viewerA.current_offset PAGE_SIZE).height = 0)
    ∧ (dfA.slice viewerA.current_offset PAGE_SIZE).height ≤ dfA.height
    ∧ (viewerA.current_offset < (dfA.height : Int) →
        viewerA.current_offset
            + ((dfA.slice viewerA.current_offset PAGE_SIZE).height : Int)
          ≤ (dfA.height : Int)) :=
  update_table_view_slice_spec viewerA dfA rfl (by decide)

/-- C6 (confirmed): with a dataframe loaded and a non-negative offset,
`go_next` followed by `go_previous` returns to the original offset whenever
a next page exists; at the boundaries the clamping rules apply: at offset 0
`go_previous` keeps the offset at 0, and on the last page `go_next` leaves
the whole state unchanged (no wrap-around past the end). -/
theorem next_then_previous (s : ViewerState) (df : DataFrame)
    (hdf : s.df = some df) (h0 : 0 ≤ s.current_offset) :
    (s.current_offset + (PAGE_SIZE : Int) < (df.height : Int) →
      (go_previous (go_next s)).current_offset = s.current_offset)
    ∧ (s.current_offset = 0 → (go_previous s).current_offset = 0)
    ∧ ((df.height : Int) ≤ s.current_offset + (PAGE_SIZE : Int) → go_next s = s) := by
  refine ⟨fun hlt => ?_, fun hz => ?_, fun hge => ?_⟩
  · simp only [go_next, hdf]
    rw [if_pos hlt]
    simp only [go_previous, update_table_view_current_offset]
    omega
  · simp only [go_previous, update_table_view_current_offset, hz]
    omega
  · simp only [go_next, hdf]
    rw [if_neg (not_lt.mpr hge)]

/-- C6 witness: `viewerPage2` sits at offset 10000 of a 10001-row frame
(its last page), and a fresh viewer at offset 0 can round-trip. -/
theorem next_then_previous_witness :
    ((viewerPage2.current_offset + (PAGE_SIZE : Int) < (dfBig.height : Int) →
        (go_previous (go_next viewerPage2)).current_offset = viewerPage2.current_offset)
      ∧ (viewerPage2.current_offset = 0 → (go_previous viewerPage2).current_offset = 0)
      ∧ ((dfBig.height : Int) ≤ viewerPage2.current_offset + (PAGE_SIZE : Int) →
          go_next viewerPage2 = viewerPage2)) :=
  next_then_previous viewerPage2 dfBig rfl (by decide)

/-- C10 (confirmed): assuming every offset handed to a load is
non-negative, `current_offset ≥ 0` is preserved by `go_next`,
`go_previous`, `load_parquet_data` and `handle_file_change`; moreover
`go_next` with no dataframe loaded is a complete no-op and `go_previous`
at offset 0 keeps the offset at 0. -/
theorem current_offset_nonneg_invariant (s : ViewerState) (p path : String)
    (off : Int) (mtN : Option Int) (rep : Bool) (rr : Option DataFrame) (rm : Int)
    (h0 : 0 ≤ s.current_offset) (hoff : 0 ≤ off) :
    0 ≤ (go_next s).current_offset
    ∧ 0 ≤ (go_previous s).current_offset
    ∧ 0 ≤ (load_parquet_data s p off rr rm).current_offset
    ∧ 0 ≤ (handle_file_change s path mtN rep rr rm).1.current_offset
    ∧ (s.df = none → go_next s = s)
    ∧ (s.current_offset = 0 → (go_previous s).current_offset = 0) := by
  have hload : ∀ (t : ViewerState) (q : String) (o : Int) (r : Option DataFrame)
      (m : Int), 0 ≤ o → 0 ≤ t.current_offset →
      0 ≤ (load_parquet_data t q o r m).current_offset := by
    intro t q o r m ho ht
    cases r with
    | some d =>
      simpa only [load_parquet_data, update_table_view_current_offset] using ho
    | none => simpa only [load_parquet_data] using ht
  have hnext : 0 ≤ (go_next s).current_offset := by
    cases hdf : s.df with
    | some d =>
      simp only [go_next, hdf]
      by_cases hlt : s.current_offset + (PAGE_SIZE : Int) < (d.height : Int)
      · rw [if_pos hlt]
        simp only [update_table_view_current_offset]
        omega
      · rw [if_neg hlt]
        exact h0
    | none => simpa only [go_next, hdf] using h0
  refine ⟨hnext, ?_, hload s p off rr rm hoff h0, ?_, fun hnone => ?_, fun hz => ?_⟩
  · simp only [go_previous, update_table_view_current_offset]
    omega
  · rw [handle_file_change.eq_def]
    split
    · exact h0
    · split
      · exact h0
      · split
        · exact h0
        · split
          · exact hload s path s.current_offset rr rm h0 h0
          · exact h0
  · simp only [go_next, hnone]
  · simp only [go_previous, update_table_view_current_offset, hz]
    omega

/-- C10 witness: the invariant instantiated on `viewerA` at offset 0. -/
theorem current_offset_nonneg_invariant_witness :
    0 ≤ (go_next viewerA).current_offset
    ∧ 0 ≤ (go_previous viewerA).current_offset
    ∧ 0 ≤ (load_parquet_data viewerA "b.parquet" 0 none 7).current_offset
    ∧ 0 ≤ (handle_file_change viewerA "a.parquet" (some 100) false none 7).1.current_offset
    ∧ (viewerA.df = none → go_next viewerA = viewerA)
    ∧ (viewerA.current_offset = 0 → (go_previous viewerA).current_offset = 0) :=
  current_offset_nonneg_invariant viewerA "b.parquet" "a.parquet" 0 (some 100)
    false none 7 (by decide) (by decide)

/-- C8 (confirmed): declining the reload prompt (reply No) only updates the
stored mtime to the newly read one — dataframe, offset, path and watcher
are untouched — and a subsequent notification carrying that same mtime is
filtered out as a no-op (no second prompt, state unchanged). -/
theorem decline_reload_updates_mtime (s : ViewerState) (p : String) (m0 m1 : Int)
    (rr rr' : Option DataFrame) (rm rm' : Int) (rep' : Bool)
    (hpath : s.current_file_path = some p)
    (hmt : s.current_file_mtime = some m0) (hne : m1 ≠ m0) :
    handle_file_change s p (some m1) false rr rm
      = ({ s with current_file_mtime := some m1 }, true)
    ∧ handle_file_change { s with current_file_mtime := some m1 } p (some m1) rep' rr' rm'
      = ({ s with current_file_mtime := some m1 }, false) := by
  constructor
  · rw [handle_file_change.eq_def]
    simp [hpath, hmt, hne]
  · rw [handle_file_change.eq_def]
    simp [hpath]

/-- C8 witness: declining on `viewerA` after the mtime moves from 100
to 200. -/
theorem decline_reload_updates_mtime_witness :
    handle_file_change viewerA "a.parquet" (some 200) false none 7
      = ({ viewerA with current_file_mtime := some 200 }, true)
    ∧ handle_file_change { viewerA with current_file_mtime := some 200 }
        "a.parquet" (some 200) true (some dfShrunk) 9
      = ({ viewerA with current_file_mtime := some 200 }, false) :=
  decline_reload_updates_mtime viewerA "a.parquet" 100 200 none (some dfShrunk)
    7 9 true rfl rfl (by decide)

/-- C4 (confirmed): from a watching state, a notification whose mtime `m1`
differs from the stored `m0` raises exactly one reload prompt; however the
user resolves it, a second notification carrying the same mtime `m1` for
the still-watched path is a no-op: no second prompt, state unchanged. -/
theorem duplicate_notification_noop (s : ViewerState) (p : String) (m0 m1 : Int)
    (rep rep' : Bool) (rr rr' : Option DataFrame) (rm' : Int)
    (hpath : s.current_file_path = some p)
    (hmt : s.current_file_mtime = some m0)
    (hw : s.watched = [p]) (hne : m1 ≠ m0)
    (hdeliv : p ∈ (handle_file_change s p (some m1) rep rr m1).1.watched) :
    (handle_file_change s p (some m1) rep rr m1).2 = true
    ∧ handle_file_change (handle_file_change s p (some m1) rep rr m1).1
        p (some m1) rep' rr' rm'
      = ((handle_file_change s p (some m1) rep rr m1).1, false) := by
  have hfirst : handle_file_change s p (some m1) rep rr m1
      = (if rep then (load_parquet_data s p s.current_offset rr m1, true)
         else ({ s with current_file_mtime := some m1 }, true)) := by
    rw [handle_file_change.eq_def]
    simp [hpath, hmt, hne]
  cases rep with
  | false =>
    rw [hfirst]
    refine ⟨rfl, ?_⟩
    rw [handle_file_change.eq_def]
    simp [hpath]
  | true =>
    rw [hfirst] at hdeliv ⊢
    cases rr with
    | some d =>
      refine ⟨rfl, ?_⟩
      rw [handle_file_change.eq_def]
      simp only [if_true]
      simp [load_parquet_data, update_table_view_current_file_path,
        update_table_view_current_file_mtime]
    | none =>
      exfalso
      simp only [if_true] at hdeliv
      simp only [load_parquet_data, unwatchCurrent, hpath, hw] at hdeliv
      simp at hdeliv

/-- C4 witness: two notifications at mtime 200 against `viewerA`
(stored mtime 100), the first declined. -/
theorem duplicate_notification_noop_witness :
    (handle_file_change viewerA "a.parquet" (some 200) false none 200).2 = true
    ∧ handle_file_change
        (handle_file_change viewerA "a.parquet" (some 200) false none 200).1
        "a.parquet" (some 200) true (some dfShrunk) 9
      = ((handle_file_change viewerA "a.parquet" (some 200) false none 200).1, false) :=
  duplicate_notification_noop viewerA "a.parquet" 100 200 false true none
    (some dfShrunk) 9 rfl rfl rfl (by decide) (by decide)

/-- C9 (confirmed): with file A loaded and watched, opening file B first
stops the watch on A (leaving no watched path, before B is ever added),
then on success watches exactly B; a failed open watches nothing at all;
and a stale notification for A arriving once B is current is a complete
no-op (no prompt, no state change). -/
theorem switch_watch_order (s : ViewerState) (pA pB : String) (off : Int)
    (dfB : DataFrame) (m : Int) (mtN : Option Int) (rep : Bool)
    (rr : Option DataFrame) (rm : Int)
    (hpath : s.current_file_path = some pA) (hw : s.watched = [pA])
    (hne : pA ≠ pB) :
    (unwatchCurrent s).watched = []
    ∧ (load_parquet_data s pB off (some dfB) m).watched = [pB]
    ∧ (load_parquet_data s pB off none m).watched = []
    ∧ (load_parquet_data s pB off (some dfB) m).current_file_path = some pB
    ∧ handle_file_change (load_parquet_data s pB off (some dfB) m) pA mtN rep rr rm
        = (load_parquet_data s pB off (some dfB) m, false) := by
  have hunw : (unwatchCurrent s).watched = [] := by
    simp [unwatchCurrent, hpath, hw]
  have hsucc : (load_parquet_data s pB off (some dfB) m).watched = [pB] := by
    simp only [load_parquet_data, update_table_view_watched]
    simp [addWatch, hunw]
  have hsuccPath : (load_parquet_data s pB off (some dfB) m).current_file_path
      = some pB := by
    simp only [load_parquet_data, update_table_view_current_file_path]
  refine ⟨hunw, hsucc, ?_, hsuccPath, ?_⟩
  · simp only [load_parquet_data]
    exact hunw
  · rw [handle_file_change.eq_def]
    rw [if_pos]
    rw [hsuccPath]
    simp [hne]

/-- C9 witness: `viewerA` (watching `a.parquet`) opens `b.parquet`, then a
stale notification for `a.parquet` arrives. -/
theorem switch_watch_order_witness :
    (unwatchCurrent viewerA).watched = []
    ∧ (load_parquet_data viewerA "b.parquet" 0 (some dfShrunk) 7).watched = ["b.parquet"]
    ∧ (load_parquet_data viewerA "b.parquet" 0 none 7).watched = []
    ∧ (load_parquet_data viewerA "b.parquet" 0 (some dfShrunk) 7).current_file_path
        = some "b.parquet"
    ∧ handle_file_change (load_parquet_data viewerA "b.parquet" 0 (some dfShrunk) 7)
        "a.parquet" (some 300) true none 9
      = (load_parquet_data viewerA "b.parquet" 0 (some dfShrunk) 7, false) :=
  switch_watch_order viewerA "a.parquet" "b.parquet" 0 dfShrunk 7 (some 300)
    true none 9 rfl rfl (by decide)

/-- C1 counterexample: with the viewer at offset 10000 of a 10001-row file,
a confirmed reload of a file shrunk to 3 rows keeps the offset at 10000,
while the reclamp rule claimed by the spec would give the largest valid
page start 0 — the code never reclamps. -/
theorem reload_ignores_reclamp_cex :
    (handle_file_change viewerPage2 "a.parquet" (some 200) true (some dfShrunk) 200).1.current_offset
      = 10000
    ∧ specReclamp 10000 dfShrunk.height PAGE_SIZE = 0
    ∧ (10000 : Int) ≠ 0 :=
  ⟨rfl, by decide, by decide⟩

/-- C1 amended (corrected): on a confirmed reload of the current file, the
viewing offset is installed unchanged regardless of the new height — no
reclamping occurs; when the new height has shrunk to at most the offset,
the installed page model is simply a zero-row window. -/
theorem reload_keeps_requested_offset (s : ViewerState) (p : String)
    (m0 m1 rm : Int) (df : DataFrame)
    (hpath : s.current_file_path = some p)
    (hmt : s.current_file_mtime = some m0) (hne : m1 ≠ m0)
    (h0 : 0 ≤ s.current_offset) :
    (handle_file_change s p (some m1) true (some df) rm).1.current_offset
      = s.current_offset
    ∧ (handle_file_change s p (some m1) true (some df) rm).1.model
      = some { df_page := df.slice s.current_offset PAGE_SIZE
               row_offset := s.current_offset }
    ∧ ((df.height : Int) ≤ s.current_offset →
        (df.slice s.current_offset PAGE_SIZE).height = 0) := by
  have hred : (handle_file_change s p (some m1) true (some df) rm).1
      = load_parquet_data s p s.current_offset (some df) rm := by
    rw [handle_file_change.eq_def]
    simp [hpath, hmt, hne]
  refine ⟨?_, ?_, fun hge => ?_⟩
  · rw [hred]
    simp only [load_parquet_data, update_table_view_current_offset]
  · rw [hred]
    simp [load_parquet_data, update_table_view]
  · rw [DataFrame.slice_height_eq df s.current_offset PAGE_SIZE h0]
    omega

/-- C1 amended witness: the shrink scenario of the counterexample, read
through the amended statement. -/
theorem reload_keeps_requested_offset_witness :
    (handle_file_change viewerPage2 "a.parquet" (some 200) true (some dfShrunk) 200).1.current_offset
      = viewerPage2.current_offset
    ∧ (handle_file_change viewerPage2 "a.parquet" (some 200) true (some dfShrunk) 200).1.model
      = some { df_page := dfShrunk.slice viewerPage2.current_offset PAGE_SIZE
               row_offset := viewerPage2.current_offset }
    ∧ ((dfShrunk.height : Int) ≤ viewerPage2.current_offset →
        (dfShrunk.slice viewerPage2.current_offset PAGE_SIZE).height = 0) :=
  reload_keeps_requested_offset viewerPage2 "a.parquet" 100 200 200 dfShrunk
    rfl rfl (by decide) (by decide)

/-- C2 counterexample: a failed open of `b.parquet` from `viewerA` clears
the previously installed dataframe (sets the slot to `none`) and removes
the watch on the old file, contrary to the claim that both stay untouched;
the recency list is indeed unaltered. -/
theorem failed_open_clears_dataset_cex :
    (load_parquet_data viewerA "b.parquet" 0 none 5).df ≠ viewerA.df
    ∧ (load_parquet_data viewerA "b.parquet" 0 none 5).watched ≠ viewerA.watched
    ∧ (load_parquet_data viewerA "b.parquet" 0 none 5).recentFiles
        = viewerA.recentFiles := by
  decide

/-- C2 amended (corrected): when opening a new file fails to load, the
dataframe slot is cleared to `none` and the error is surfaced as the status
message; the watch on the previous file has already been removed (the
watcher list is exactly the unwatched one), while the recency list, the
persisted last-file path, the current path, the stored mtime and the
offset are all unaltered. -/
theorem failed_open_state (s : ViewerState) (p : String) (off m : Int) :
    (load_parquet_data s p off none m).df = none
    ∧ (load_parquet_data s p off none m).status = Status.errorLoading p
    ∧ (load_parquet_data s p off none m).watched = (unwatchCurrent s).watched
    ∧ (load_parquet_data s p off none m).recentFiles = s.recentFiles
    ∧ (load_parquet_data s p off none m).lastFilePath = s.lastFilePath
    ∧ (load_parquet_data s p off none m).current_file_path = s.current_file_path
    ∧ (load_parquet_data s p off none m).current_file_mtime = s.current_file_mtime
    ∧ (load_parquet_data s p off none m).current_offset = s.current_offset :=
  ⟨rfl, rfl, rfl, rfl, rfl, rfl, rfl, rfl⟩

/-- A one-cell page model whose only cell is null. -/
def nullCellModel : PolarsTableModel :=
  { df_page := { columns := ["a"], data := [[none]] }, row_offset := 0 }

/-- A one-row value-counts model whose Value cell is null. -/
def nullValueCountsModel : ValueCountsModel :=
  { df_counts :=
      { columns := ["Value", "count", "%"]
        data := [[none, some "5", some "0.50"]] } }

/-- C3 counterexample: in the main table model the displayable value of a
null cell is the empty string itself, not a marker distinct from it. -/
theorem null_displays_as_empty_cex :
    nullCellModel.df_page.cellAt 0 0 = none
    ∧ nullCellModel.dataAt 0 0 = some "" := by
  decide

/-- C3 amended (corrected): only the value-counts model maps a null to the
explicit marker `"<null>"`, which is distinct from the empty string; the
main table model maps a null to the empty string itself. -/
theorem null_marker_amended (mp : PolarsTableModel) (mv : ValueCountsModel)
    (r c r' c' : Nat)
    (h1 : r < mp.rowCount) (h2 : c < mp.columnCount)
    (h3 : mp.df_page.cellAt r c = none)
    (h4 : r' < mv.rowCount) (h5 : c' < mv.columnCount)
    (h6 : mv.df_counts.cellAt r' c' = none) :
    mv.dataAt r' c' = some "<null>"
    ∧ ("<null>" : String) ≠ ""
    ∧ mp.dataAt r c = some "" := by
  refine ⟨?_, by decide, ?_⟩
  · simp [ValueCountsModel.dataAt, h4, h5, h6]
  · simp [PolarsTableModel.dataAt, h1, h2, h3]

/-- C3 amended witness: the two concrete one-null-cell models. -/
theorem null_marker_amended_witness :
    nullValueCountsModel.dataAt 0 0 = some "<null>"
    ∧ ("<null>" : String) ≠ ""
    ∧ nullCellModel.dataAt 0 0 = some "" :=
  null_marker_amended nullCellModel nullValueCountsModel 0 0 0 0
    (by decide) (by decide) (by decide) (by decide) (by decide) (by decide)

end PView
